import Mathlib

/-!
Shallow embedding of the `logs` library's client-lifecycle and
retention-enforcement subsystem, translated from the TypeScript sources
(src/setup.ts, src/retentionPolicy.ts, src/logs.ts, src/config.ts).
Asynchronous functions are modelled as pure functions; a thrown error is an
`Except.error` carrying the message of the `Error` object; the module-level
`elasticClient` variable is explicit state of type `Option Client`; the
external Elasticsearch engine is a parameter.
-/

namespace LogsLib

/-- Configuration accepted by `initializeClient` (src/setup.ts lines 5-9). -/
structure ElasticsearchConfig where
  url : String
  username : Option String
  password : Option String
  deriving DecidableEq, Repr

/-- The `tls` options object passed to the client constructor. -/
structure TlsOptions where
  rejectUnauthorized : Bool
  deriving DecidableEq, Repr

/-- The `auth` options object passed to the client constructor. -/
structure AuthCredentials where
  username : String
  password : String
  deriving DecidableEq, Repr

/-- The options object handed to `new Client` (src/setup.ts lines 20-31). -/
structure ClientOptions where
  node : String
  auth : Option AuthCredentials
  tls : Option TlsOptions
  deriving DecidableEq, Repr

/-- An Elasticsearch client handle, identified by the options it was built from. -/
structure Client where
  options : ClientOptions
  deriving DecidableEq, Repr

/-- JavaScript truthiness of an optional string: `undefined` and `""` are falsy. -/
def strTruthy : Option String → Bool
  | none => false
  | some s => !s.isEmpty

/-- The `auth` field `initializeClient` computes (src/setup.ts lines 22-25):
`config.username && config.password ? { username, password } : undefined`,
with JavaScript truthiness (an empty string counts as absent). -/
def configAuth (config : ElasticsearchConfig) : Option AuthCredentials :=
  match config.username, config.password with
  | some u, some p =>
    if !u.isEmpty && !p.isEmpty then some { username := u, password := p } else none
  | _, _ => none

/-- JavaScript `String.prototype.startsWith`: a character-prefix test. -/
def jsStartsWith (s pre : String) : Bool :=
  pre.data.isPrefixOf s.data

/-- The full options object `initializeClient` passes to `new Client`
(src/setup.ts lines 20-31): `tls` is set exactly when the url starts with
"https", and then disables certificate verification. -/
def clientOptionsOfConfig (config : ElasticsearchConfig) : ClientOptions :=
  { node := config.url
    auth := configAuth config
    tls :=
      if jsStartsWith config.url "https" then some { rejectUnauthorized := false }
      else none }

/-- One call to `initializeClient` (src/setup.ts lines 16-43). `ctor` models the
`new Client(...)` constructor, which may throw. The result is the new value of
the module-level `elasticClient` variable together with what the caller sees:
the returned client, or the message of the thrown error. When the constructor
throws, the assignment to `elasticClient` never happens, so the state stays
`none` and the fixed failure message is thrown. -/
def initializeClient (ctor : ClientOptions → Except String Client)
    (elasticClient : Option Client) (config : ElasticsearchConfig) :
    Option Client × Except String Client :=
  match elasticClient with
  | some c => (some c, Except.ok c)
  | none =>
    match ctor (clientOptionsOfConfig config) with
    | Except.ok c => (some c, Except.ok c)
    | Except.error _ =>
      (none,
        Except.error "Failed to initialize Elasticsearch client. Check your configuration.")

/-- `getClient` (src/setup.ts lines 49-56): throws when the module-level
variable is still null, otherwise returns it. It never constructs a client. -/
def getClient (elasticClient : Option Client) : Except String Client :=
  match elasticClient with
  | none =>
    Except.error "Elasticsearch client is not initialized. Call setupElasticsearch() first."
  | some c => Except.ok c

/-- `setupElasticsearch` (src/setup.ts lines 64-68) delegates to `initializeClient`. -/
def setupElasticsearch (ctor : ClientOptions → Except String Client)
    (elasticClient : Option Client) (config : ElasticsearchConfig) :
    Option Client × Except String Client :=
  initializeClient ctor elasticClient config

/-- The module-level state after one `initializeClient` call: the state
component of the result (a thrown error leaves the variable untouched). -/
def initStep (ctor : ClientOptions → Except String Client)
    (elasticClient : Option Client) (config : ElasticsearchConfig) : Option Client :=
  (initializeClient ctor elasticClient config).1

end LogsLib

namespace LogsLib

/-- Milliseconds in one day, the unit of the retention window. -/
def msPerDay : Int := 86400000

/-- The cutoff both retention functions compute with
`timestamp.setDate(timestamp.getDate() - days)`: the current time minus
`days` days, modelled in milliseconds since the epoch (UTC calendar
arithmetic, where moving the date back by `days` subtracts exactly
`days * msPerDay`). -/
def retentionCutoff (now days : Int) : Int := now - days * msPerDay

/-- The `conflicts` mode of a delete-by-query request. -/
inductive Conflicts where
  | abort
  | proceed
  deriving DecidableEq, Repr

/-- A `range` query with a strict `lt` bound on one field. -/
structure RangeLtQuery where
  field : String
  lt : Int
  deriving DecidableEq, Repr

/-- The body of a `deleteByQuery` call. -/
structure DeleteByQueryRequest where
  index : String
  query : RangeLtQuery
  conflicts : Conflicts
  deriving DecidableEq, Repr

/-- The delete-by-query request issued by `RetentionPolicy.enforceRetention`
(src/retentionPolicy.ts lines 25-37) and by `applyRetentionPolicy`
(src/setup.ts lines 88-100): delete every record whose `timestamp` is
strictly below the cutoff, with `conflicts: "proceed"`. -/
def retentionRequest (index : String) (now days : Int) : DeleteByQueryRequest :=
  { index := index
    query := { field := "timestamp", lt := retentionCutoff now days }
    conflicts := Conflicts.proceed }

/-- A stored log record, as written by `Logs.log` (src/logs.ts lines 40-48). -/
structure LogRecord where
  timestamp : Int
  level : String
  message : String
  deriving DecidableEq, Repr

/-- Engine semantics of a `range ... lt` query on the `timestamp` field:
whether the record is selected. -/
def matchesRangeLt (q : RangeLtQuery) (r : LogRecord) : Bool :=
  q.field == "timestamp" && decide (r.timestamp < q.lt)

/-- The records of a store that a delete-by-query request selects for deletion. -/
def selectedForDeletion (req : DeleteByQueryRequest) (store : List LogRecord) :
    List LogRecord :=
  store.filter (fun r => matchesRangeLt req.query r)

/-- Engine semantics of executing a delete-by-query against a store: the
surviving records and the `deleted` count of the response. -/
def execDeleteByQuery (req : DeleteByQueryRequest) (store : List LogRecord) :
    List LogRecord × Nat :=
  (store.filter (fun r => !matchesRangeLt req.query r),
    (selectedForDeletion req store).length)

/-- Which console channel a line was written to. -/
inductive ConsoleStream where
  | log
  | error
  deriving DecidableEq, Repr

/-- One console line: the channel, the message, and the extra error argument
passed to `console.error(msg, error)` when present. -/
structure ConsoleEvent where
  stream : ConsoleStream
  message : String
  attached : Option String
  deriving DecidableEq, Repr

/-- One call to `RetentionPolicy.enforceRetention` (src/retentionPolicy.ts
lines 16-57): the console output in order, and the outcome the caller of the
`Promise<void>` sees — `Except.ok ()` on resolution, or the message of the
thrown error. `engine` models `client.deleteByQuery`, returning the deleted
count or failing. -/
def enforceRetention (engine : DeleteByQueryRequest → Except String Nat)
    (now : Int) (index : String) (days : Int) :
    List ConsoleEvent × Except String Unit :=
  let opening : ConsoleEvent :=
    { stream := ConsoleStream.log
      message := "Enforcing retention policy for index \"" ++ index ++
        "\" to retain logs newer than " ++ toString days ++ " days."
      attached := none }
  match engine (retentionRequest index now days) with
  | Except.ok deleted =>
    if deleted = 0 then
      ([opening,
        { stream := ConsoleStream.log
          message := "No logs older than " ++ toString days ++
            " days found in index \"" ++ index ++ "\"."
          attached := none }],
        Except.ok ())
    else
      ([opening,
        { stream := ConsoleStream.log
          message := "Deleted " ++ toString deleted ++ " logs older than " ++
            toString days ++ " days from index \"" ++ index ++ "\"."
          attached := none }],
        Except.ok ())
  | Except.error e =>
    ([opening,
      { stream := ConsoleStream.error
        message := "Failed to enforce retention policy on index \"" ++ index ++ "\":"
        attached := some e }],
      Except.error ("Retention policy enforcement failed for index \"" ++ index ++ "\"."))

/-- The body of `applyRetentionPolicy`'s loop for one index (src/setup.ts
lines 83-117): the engine call is wrapped in try/catch, a failure is written
to the console (with the caught error attached) and swallowed, so the loop
always continues to the next index. Returns the console lines for the index. -/
def retentionIndexOutcome (engine : DeleteByQueryRequest → Except String Nat)
    (now days : Int) (index : String) : List ConsoleEvent :=
  let opening : ConsoleEvent :=
    { stream := ConsoleStream.log
      message := "Applying retention policy for index \"" ++ index ++
        "\" to retain logs newer than " ++ toString days ++ " days."
      attached := none }
  match engine (retentionRequest index now days) with
  | Except.ok deleted =>
    if deleted = 0 then
      [opening,
        { stream := ConsoleStream.log
          message := "No logs older than " ++ toString days ++ " days found in \"" ++
            index ++ "\"."
          attached := none }]
    else
      [opening,
        { stream := ConsoleStream.log
          message := "Deleted " ++ toString deleted ++ " logs older than " ++
            toString days ++ " days from \"" ++ index ++ "\"."
          attached := none }]
  | Except.error e =>
    [opening,
      { stream := ConsoleStream.error
        message := "❌ Failed to apply retention policy for index \"" ++ index ++ "\":"
        attached := some e }]

/-- `applyRetentionPolicy` (src/setup.ts lines 75-118): computes one cutoff
from the call-time clock, then loops over the indices; every per-index
failure is caught inside the loop, so the returned `Promise<void>` always
resolves. The result is the per-index console report and the resolved value. -/
def applyRetentionPolicy (engine : DeleteByQueryRequest → Except String Nat)
    (now : Int) (indices : List String) (retentionDays : Int) :
    List (List ConsoleEvent) × Unit :=
  (indices.map (fun index => retentionIndexOutcome engine now retentionDays index), ())

/-- `applyRetentionPolicy` called with `retentionDays` unspecified: the
TypeScript parameter default is 30 (src/setup.ts line 77). -/
def applyRetentionPolicyDefault (engine : DeleteByQueryRequest → Except String Nat)
    (now : Int) (indices : List String) : List (List ConsoleEvent) × Unit :=
  applyRetentionPolicy engine now indices 30

/-- Per-environment index settings (src/config.ts). -/
structure IndexSettings where
  shards : Nat
  replicas : Nat
  deriving DecidableEq, Repr

/-- The configuration record of src/config.ts. -/
structure Config where
  retentionDays : Nat
  development : IndexSettings
  staging : IndexSettings
  production : IndexSettings
  deriving DecidableEq, Repr

/-- `defaultConfig` from src/config.ts. -/
def defaultConfig : Config :=
  { retentionDays := 30
    development := { shards := 1, replicas := 0 }
    staging := { shards := 2, replicas := 1 }
    production := { shards := 3, replicas := 2 } }

/-- A thrown domain error: the message of the `new Error(...)`, and the cause
attached to it (always `none` in this codebase — `new Error` is called with a
message only, never with a cause option). -/
structure DomainError where
  message : String
  cause : Option String
  deriving DecidableEq, Repr

/-- The catch branch of `Logs.log` (src/logs.ts lines 50-56): the console line
with the original error attached, and the error thrown to the caller. -/
def logsLogFailure (message level : String) (cause : String) :
    List ConsoleEvent × DomainError :=
  ([{ stream := ConsoleStream.error
      message := "Failed to log message: \"" ++ message ++ "\" with level: \"" ++
        level ++ "\"."
      attached := some cause }],
    { message := "Logging failed. Check Elasticsearch connection.", cause := none })

/-- The catch branch of `Logs.createIndex` (src/logs.ts lines 208-211). -/
def logsCreateIndexFailure (index : String) (cause : String) :
    List ConsoleEvent × DomainError :=
  ([{ stream := ConsoleStream.error
      message := "Failed to create index \"" ++ index ++ "\":"
      attached := some cause }],
    { message := "Error creating index.", cause := none })

/-- The catch branch of `Logs.deleteDocument` (src/logs.ts lines 170-173). -/
def logsDeleteDocumentFailure (docId : String) (cause : String) :
    List ConsoleEvent × DomainError :=
  ([{ stream := ConsoleStream.error
      message := "Failed to delete document " ++ docId ++ ":"
      attached := some cause }],
    { message := "Error deleting document " ++ docId ++ ".", cause := none })

/-- Whether `sub` occurs as a contiguous substring of `s`. -/
def containsSub (s sub : String) : Bool :=
  (List.range (s.length + 1)).any (fun i => sub.data.isPrefixOf (s.data.drop i))

/-- A constructor model that always succeeds, returning the handle built from
the given options. -/
def ctorOk : ClientOptions → Except String Client :=
  fun o => Except.ok { options := o }

/-- A constructor model that always throws. -/
def ctorFail : ClientOptions → Except String Client :=
  fun _ => Except.error "boom"

/-- A constructor model that throws exactly for the node url "http://bad". -/
def ctorFlaky : ClientOptions → Except String Client :=
  fun o =>
    if o.node = "http://bad" then Except.error "getaddrinfo ENOTFOUND bad"
    else Except.ok { options := o }

/-- A plain valid configuration used by concrete instances. -/
def cfg0 : ElasticsearchConfig :=
  { url := "http://localhost:9200", username := none, password := none }

/-- A configuration whose url the flaky constructor rejects. -/
def cfgBad : ElasticsearchConfig :=
  { url := "http://bad", username := none, password := none }

/-- A configuration with an https url. -/
def cfgTls : ElasticsearchConfig :=
  { url := "https://secure:9200", username := none, password := none }

/-- A configuration with both credential fields set but an empty username. -/
def cfgEmptyUser : ElasticsearchConfig :=
  { url := "http://localhost:9200", username := some "", password := some "secret" }

/-- A configuration with both credential fields set and non-empty. -/
def cfgFull : ElasticsearchConfig :=
  { url := "http://localhost:9200"
    username := some "elastic"
    password := some "changeme" }

/-- The handle built from `cfg0` by the always-succeeding constructor. -/
def client0 : Client := { options := clientOptionsOfConfig cfg0 }

/-- An engine model that fails every delete-by-query. -/
def engineFail : DeleteByQueryRequest → Except String Nat :=
  fun _ => Except.error "conn refused"

/-- An engine model that reports 0 deleted records. -/
def engineOk0 : DeleteByQueryRequest → Except String Nat :=
  fun _ => Except.ok 0

/-- An engine model that reports 1 deleted record. -/
def engineOk1 : DeleteByQueryRequest → Except String Nat :=
  fun _ => Except.ok 1

/-- An engine model that reports 2 deleted records. -/
def engineOk2 : DeleteByQueryRequest → Except String Nat :=
  fun _ => Except.ok 2

end LogsLib

namespace LogsLib

/-- Characterization of the computed auth options: set exactly when both
credentials are truthy, and then carrying them verbatim. -/
theorem configAuth_spec (cfg : ElasticsearchConfig) :
    configAuth cfg =
      (if strTruthy cfg.username && strTruthy cfg.password then
        some { username := cfg.username.getD "", password := cfg.password.getD "" }
      else none) := by
  obtain ⟨url, username, password⟩ := cfg
  cases username <;> cases password <;> simp [configAuth, strTruthy]

/-- Claim C1: for every retention window d ≥ 0, the delete-by-query issued by
retention enforcement is in conflict-tolerant mode and selects exactly the
records of the store whose timestamp is strictly below now − d days; the
cutoff is a function of the call-time clock, so different call moments give
different cutoffs. -/
theorem claim1_retention_selects_exactly_old (index : String) (now d : Int)
    (hd : 0 ≤ d) (store : List LogRecord) :
    (retentionRequest index now d).conflicts = Conflicts.proceed
    ∧ (∀ r, r ∈ selectedForDeletion (retentionRequest index now d) store
        ↔ r ∈ store ∧ r.timestamp < now - d * msPerDay)
    ∧ (∀ now2, now2 ≠ now →
        (retentionRequest index now2 d).query.lt ≠ (retentionRequest index now d).query.lt) := by
  refine ⟨rfl, ?_, ?_⟩
  · intro r
    simp [selectedForDeletion, matchesRangeLt, retentionRequest, retentionCutoff,
      List.mem_filter]
  · intro now2 h
    simp only [retentionRequest, retentionCutoff, ne_eq]
    intro hc
    exact h (by omega)

/-- Closed instance of claim C1 at a concrete index, clock, window and store. -/
theorem claim1_witness :
    (0:Int) ≤ 30
    ∧ ((retentionRequest "app-logs" 1000 30).conflicts = Conflicts.proceed
      ∧ (∀ r, r ∈ selectedForDeletion (retentionRequest "app-logs" 1000 30)
            [{ timestamp := -10000000000, level := "info", message := "old" }]
          ↔ r ∈ [({ timestamp := -10000000000, level := "info", message := "old" } : LogRecord)]
            ∧ r.timestamp < 1000 - 30 * msPerDay)
      ∧ (∀ now2, now2 ≠ 1000 →
          (retentionRequest "app-logs" now2 30).query.lt ≠
            (retentionRequest "app-logs" 1000 30).query.lt)) :=
  ⟨by decide, claim1_retention_selects_exactly_old "app-logs" 1000 30 (by decide)
    [{ timestamp := -10000000000, level := "info", message := "old" }]⟩

/-- Claim C2: before any successful initialization, `getClient` fails with the
"not initialized" error and never fabricates a client (any client it returns
was already the stored one); after a successful `setupElasticsearch`, it
returns the created handle. -/
theorem claim2_getClient_contract :
    (getClient none =
      Except.error "Elasticsearch client is not initialized. Call setupElasticsearch() first.")
    ∧ (∀ s c, getClient s = Except.ok c → s = some c)
    ∧ (∀ ctor cfg s c, setupElasticsearch ctor none cfg = (s, Except.ok c) →
        getClient s = Except.ok c) := by
  refine ⟨rfl, ?_, ?_⟩
  · intro s c h
    cases s with
    | none => exact absurd h (by simp [getClient])
    | some c2 =>
      simp only [getClient, Except.ok.injEq] at h
      rw [h]
  · intro ctor cfg s c h
    cases hc : ctor (clientOptionsOfConfig cfg) with
    | ok c2 =>
      simp only [setupElasticsearch, initializeClient, hc, Prod.mk.injEq,
        Except.ok.injEq] at h
      obtain ⟨h1, h2⟩ := h
      subst h2
      rw [← h1]
      rfl
    | error e =>
      simp [setupElasticsearch, initializeClient, hc] at h

/-- Closed instance of claim C2: after a successful setup the stored handle is
returned. -/
theorem claim2_witness : getClient (some client0) = Except.ok client0 :=
  claim2_getClient_contract.2.2 ctorOk cfg0 (some client0) client0 rfl

/-- Claim C3: initialization is idempotent — once a handle exists, every later
call returns that same handle and leaves the state unchanged, whatever the
new configuration or constructor behavior; over any sequence of later calls
the state keeps the first handle, so at most one live handle ever exists. -/
theorem claim3_initialize_idempotent :
    (∀ ctor2 c cfg2, initializeClient ctor2 (some c) cfg2 = (some c, Except.ok c))
    ∧ (∀ ctor1 ctor2 cfg1 cfg2 s c,
        initializeClient ctor1 none cfg1 = (s, Except.ok c) →
        initializeClient ctor2 s cfg2 = (s, Except.ok c))
    ∧ (∀ ctor c cfgs, List.foldl (initStep ctor) (some c) cfgs = some c) := by
  have hsome : ∀ ctor2 c cfg2,
      initializeClient ctor2 (some c) cfg2 = (some c, Except.ok c) :=
    fun _ _ _ => rfl
  refine ⟨hsome, ?_, ?_⟩
  · intro ctor1 ctor2 cfg1 cfg2 s c h
    cases hc : ctor1 (clientOptionsOfConfig cfg1) with
    | ok c2 =>
      simp only [initializeClient, hc, Prod.mk.injEq, Except.ok.injEq] at h
      obtain ⟨h1, h2⟩ := h
      subst h2
      rw [← h1]
      exact hsome ctor2 c2 cfg2
    | error e =>
      simp [initializeClient, hc] at h
  · intro ctor c cfgs
    induction cfgs with
    | nil => rfl
    | cons cfg rest ih =>
      simpa [List.foldl, initStep, initializeClient] using ih

/-- Closed instance of claim C3: a second call with a constructor that would
throw still returns the first handle, proving no construction is attempted. -/
theorem claim3_witness :
    initializeClient ctorFail (some client0) cfg0 = (some client0, Except.ok client0) :=
  claim3_initialize_idempotent.2.1 ctorOk ctorFail cfg0 cfg0 (some client0) client0 rfl

/-- Claim C4: multi-index retention enforcement visits every index — the
report has one entry per index, each entry depends only on that index's own
engine outcome — the whole operation always resolves without throwing, and a
failing index is reported in place with its reason. -/
theorem claim4_per_index_independence (engine : DeleteByQueryRequest → Except String Nat)
    (now days : Int) (indices : List String) :
    ((applyRetentionPolicy engine now indices days).1.length = indices.length)
    ∧ (∀ i : Nat, (applyRetentionPolicy engine now indices days).1[i]?
        = (indices[i]?).map (retentionIndexOutcome engine now days))
    ∧ ((applyRetentionPolicy engine now indices days).2 = ())
    ∧ (∀ index e, engine (retentionRequest index now days) = Except.error e →
        retentionIndexOutcome engine now days index =
          [{ stream := ConsoleStream.log
             message := "Applying retention policy for index \"" ++ index ++
               "\" to retain logs newer than " ++ toString days ++ " days."
             attached := none },
           { stream := ConsoleStream.error
             message := "❌ Failed to apply retention policy for index \"" ++ index ++ "\":"
             attached := some e }]) := by
  refine ⟨by simp [applyRetentionPolicy], ?_, rfl, ?_⟩
  · intro i
    simp [applyRetentionPolicy, List.getElem?_map]
  · intro index e he
    simp [retentionIndexOutcome, he]

/-- Closed instance of claim C4: with an engine that rejects every request,
the failing index is reported with its reason while the run covers both
indices. -/
theorem claim4_witness :
    retentionIndexOutcome engineFail 0 30 "app-logs" =
      [{ stream := ConsoleStream.log
         message := "Applying retention policy for index \"app-logs\" to retain logs newer than 30 days."
         attached := none },
       { stream := ConsoleStream.error
         message := "❌ Failed to apply retention policy for index \"app-logs\":"
         attached := some "conn refused" }] :=
  (claim4_per_index_independence engineFail 0 30 ["app-logs", "logs-other"]).2.2.2
    "app-logs" "conn refused" rfl

end LogsLib

namespace LogsLib

/-- Claim C5 fails on the code: both retention entry points return
`Promise<void>`, so two runs whose deleted counts differ (1 and 2) settle
with the same caller-visible value — the deleted count is not yielded as the
result. -/
theorem claim5_counterexample :
    engineOk1 (retentionRequest "app-logs" 0 30) = Except.ok 1
    ∧ engineOk2 (retentionRequest "app-logs" 0 30) = Except.ok 2
    ∧ (1:Nat) ≠ 2
    ∧ (enforceRetention engineOk1 0 "app-logs" 30).2
        = (enforceRetention engineOk2 0 "app-logs" 30).2
    ∧ (applyRetentionPolicy engineOk1 0 ["app-logs"] 30).2
        = (applyRetentionPolicy engineOk2 0 ["app-logs"] 30).2 :=
  ⟨rfl, rfl, by decide, rfl, rfl⟩

/-- Claim C5 (amended): retention enforcement reports the per-index deleted
count on the console — 0 being a valid, non-error outcome with its own
message — while the operation itself resolves with no value. -/
theorem claim5_amended_count_reported (engine : DeleteByQueryRequest → Except String Nat)
    (now : Int) (index : String) (days : Int) (n : Nat)
    (h : engine (retentionRequest index now days) = Except.ok n) :
    (enforceRetention engine now index days).2 = Except.ok ()
    ∧ (enforceRetention engine now index days).1 =
      [{ stream := ConsoleStream.log
         message := "Enforcing retention policy for index \"" ++ index ++
           "\" to retain logs newer than " ++ toString days ++ " days."
         attached := none },
       if n = 0 then
         { stream := ConsoleStream.log
           message := "No logs older than " ++ toString days ++
             " days found in index \"" ++ index ++ "\"."
           attached := none }
       else
         { stream := ConsoleStream.log
           message := "Deleted " ++ toString n ++ " logs older than " ++
             toString days ++ " days from index \"" ++ index ++ "\"."
           attached := none }] := by
  by_cases hn : n = 0 <;> simp [enforceRetention, h, hn]

/-- Closed instance of amended claim C5: an engine that deletes nothing gives
the non-error "No logs older" report and a void resolution. -/
theorem claim5_witness :
    (enforceRetention engineOk0 0 "app-logs" 30).2 = Except.ok ()
    ∧ (enforceRetention engineOk0 0 "app-logs" 30).1 =
      [{ stream := ConsoleStream.log
         message := "Enforcing retention policy for index \"app-logs\" to retain logs newer than 30 days."
         attached := none },
       if (0:Nat) = 0 then
         { stream := ConsoleStream.log
           message := "No logs older than 30 days found in index \"app-logs\"."
           attached := none }
       else
         { stream := ConsoleStream.log
           message := "Deleted " ++ toString (0:Nat) ++ " logs older than 30 days from index \"app-logs\"."
           attached := none }] :=
  claim5_amended_count_reported engineOk0 0 "app-logs" 30 0 rfl

/-- Claim C6: when the client constructor throws, initialization surfaces the
fixed "initialization failed" error, the module-level state stays
uninitialized, and a retry with a configuration the constructor accepts
succeeds. -/
theorem claim6_failed_init_keeps_state (ctor : ClientOptions → Except String Client)
    (cfg cfg2 : ElasticsearchConfig) (e : String) (c : Client)
    (h1 : ctor (clientOptionsOfConfig cfg) = Except.error e)
    (h2 : ctor (clientOptionsOfConfig cfg2) = Except.ok c) :
    initializeClient ctor none cfg =
      (none, Except.error "Failed to initialize Elasticsearch client. Check your configuration.")
    ∧ initStep ctor none cfg = none
    ∧ initializeClient ctor (initStep ctor none cfg) cfg2 = (some c, Except.ok c) := by
  have hfail : initializeClient ctor none cfg =
      (none, Except.error "Failed to initialize Elasticsearch client. Check your configuration.") := by
    simp [initializeClient, h1]
  have hstate : initStep ctor none cfg = none := by
    simp [initStep, hfail]
  refine ⟨hfail, hstate, ?_⟩
  rw [hstate]
  simp [initializeClient, h2]

/-- Closed instance of claim C6: a constructor that rejects "http://bad"
leaves the state empty, and the retry with a good url succeeds. -/
theorem claim6_witness :
    initializeClient ctorFlaky none cfgBad =
      (none, Except.error "Failed to initialize Elasticsearch client. Check your configuration.")
    ∧ initStep ctorFlaky none cfgBad = none
    ∧ initializeClient ctorFlaky (initStep ctorFlaky none cfgBad) cfg0 =
      (some { options := clientOptionsOfConfig cfg0 },
        Except.ok { options := clientOptionsOfConfig cfg0 }) :=
  claim6_failed_init_keeps_state ctorFlaky cfgBad cfg0 "getaddrinfo ENOTFOUND bad"
    { options := clientOptionsOfConfig cfg0 } rfl rfl

/-- Claim C7: a call that leaves the retention window unspecified uses 30
days — the parameter default of `applyRetentionPolicy` — and the packaged
`defaultConfig` also carries 30; the resulting cutoff is now − 30 days. -/
theorem claim7_default_thirty_days :
    (∀ engine now indices,
      applyRetentionPolicyDefault engine now indices
        = applyRetentionPolicy engine now indices 30)
    ∧ defaultConfig.retentionDays = 30
    ∧ (∀ index now, (retentionRequest index now 30).query.lt = now - 30 * msPerDay) :=
  ⟨fun _ _ _ => rfl, rfl, fun _ _ => rfl⟩

/-- Claim C8 fails on the code: the error `Logs.createIndex` re-raises is the
fixed string "Error creating index." — for index "app-logs" it neither
contains the index name nor carries the original cause. -/
theorem claim8_counterexample :
    (logsCreateIndexFailure "app-logs" "503 service unavailable").2.message
      = "Error creating index."
    ∧ containsSub (logsCreateIndexFailure "app-logs" "503 service unavailable").2.message
        "app-logs" = false
    ∧ (logsCreateIndexFailure "app-logs" "503 service unavailable").2.cause = none := by
  refine ⟨rfl, by decide, rfl⟩

/-- Claim C8 (amended): each operation catches the engine failure, writes the
operation context and the original cause to the console, and re-raises a
fixed domain error that names the operation (for some operations also the
target id) without wrapping the cause. -/
theorem claim8_amended_error_translation (index docId msg level cause : String) :
    ((logsLogFailure msg level cause).2.cause = none
      ∧ (logsCreateIndexFailure index cause).2.cause = none
      ∧ (logsDeleteDocumentFailure docId cause).2.cause = none)
    ∧ ((logsLogFailure msg level cause).2.message
        = "Logging failed. Check Elasticsearch connection."
      ∧ (logsCreateIndexFailure index cause).2.message = "Error creating index."
      ∧ (logsDeleteDocumentFailure docId cause).2.message
        = "Error deleting document " ++ docId ++ ".")
    ∧ ((logsLogFailure msg level cause).1 =
        [{ stream := ConsoleStream.error
           message := "Failed to log message: \"" ++ msg ++ "\" with level: \"" ++
             level ++ "\"."
           attached := some cause }]
      ∧ (logsCreateIndexFailure index cause).1 =
        [{ stream := ConsoleStream.error
           message := "Failed to create index \"" ++ index ++ "\":"
           attached := some cause }]) :=
  ⟨⟨rfl, rfl, rfl⟩, ⟨rfl, rfl, rfl⟩, rfl, rfl⟩

/-- Claim C9: the client is created with tls options exactly when the
configured url starts with "https", and those options disable certificate
verification; otherwise no tls options are set. -/
theorem claim9_tls_iff_https (cfg : ElasticsearchConfig) :
    (jsStartsWith cfg.url "https" = true →
      (clientOptionsOfConfig cfg).tls = some { rejectUnauthorized := false })
    ∧ (jsStartsWith cfg.url "https" = false → (clientOptionsOfConfig cfg).tls = none) := by
  constructor <;> intro h <;> simp [clientOptionsOfConfig, h]

/-- Closed instance of claim C9 at an https configuration. -/
theorem claim9_witness :
    (clientOptionsOfConfig cfgTls).tls = some { rejectUnauthorized := false } :=
  (claim9_tls_iff_https cfgTls).1 (by decide)

/-- Claim C10 fails on the code: a configuration with both credential fields
present but an empty username gets no auth — JavaScript truthiness drops the
pair — refuting "auth iff both present". -/
theorem claim10_counterexample :
    cfgEmptyUser.username.isSome = true
    ∧ cfgEmptyUser.password.isSome = true
    ∧ (clientOptionsOfConfig cfgEmptyUser).auth = none
    ∧ ¬(((clientOptionsOfConfig cfgEmptyUser).auth ≠ none)
        ↔ (cfgEmptyUser.username.isSome = true ∧ cfgEmptyUser.password.isSome = true)) := by
  decide

/-- Claim C10 (amended): basic-auth is attached iff both username and
password are present and non-empty (JavaScript truthiness); then it carries
them verbatim, and otherwise the partial credential is silently dropped and
the options are still built with no auth. -/
theorem claim10_amended_auth_iff_truthy (cfg : ElasticsearchConfig) :
    ((clientOptionsOfConfig cfg).auth ≠ none
      ↔ strTruthy cfg.username = true ∧ strTruthy cfg.password = true)
    ∧ (∀ u p, cfg.username = some u → cfg.password = some p →
        u.isEmpty = false → p.isEmpty = false →
        (clientOptionsOfConfig cfg).auth = some { username := u, password := p })
    ∧ ((strTruthy cfg.username = false ∨ strTruthy cfg.password = false) →
        (clientOptionsOfConfig cfg).auth = none) := by
  have hauth : (clientOptionsOfConfig cfg).auth = configAuth cfg := rfl
  refine ⟨?_, ?_, ?_⟩
  · rw [hauth, configAuth_spec]
    by_cases h1 : strTruthy cfg.username = true <;>
      by_cases h2 : strTruthy cfg.password = true <;>
      simp [h1, h2]
  · intro u p hu hp hue hpe
    rw [hauth, configAuth_spec, hu, hp]
    simp [strTruthy, hue, hpe]
  · intro h
    rw [hauth, configAuth_spec]
    rcases h with h | h <;> simp [h]

/-- Closed instance of amended claim C10: both credentials present and
non-empty yields them as basic auth. -/
theorem claim10_witness :
    (clientOptionsOfConfig cfgFull).auth
      = some { username := "elastic", password := "changeme" } :=
  (claim10_amended_auth_iff_truthy cfgFull).2.1 "elastic" "changeme" rfl rfl rfl rfl

end LogsLib
